import Mathlib

/-!
Shallow embedding of the bluesky-crawlee repository, files
src/bluesky_crawlee/actor.py and src/bluesky_crawlee/default.py.

Modelling conventions.  A yarl URL is a base string plus an ordered list
of query parameters; yarl update_query replaces the value of an existing
key in place and appends a missing key at the end.  JSON bodies are
modelled structurally: an optional JSON key becomes an Option field, and
a dictionary access that can raise KeyError becomes an Option-valued
result.  The nested accesses for reply links,
record.get(reply).get(parent).get(uri), are collapsed into one optional
field holding the final uri.  The crawling engine (crawlee) is the
out-of-scope collaborator: each handler is embedded as a pure function
from the decoded response body to the records it pushes, the requests it
adds and the pagination continuation it submits.  The two run functions
are embedded as pure functions from an environment of step outcomes
(did authentication succeed, did the crawl succeed, did the
session-deletion call succeed) to the ordered trace of observable events
and the final outcome of the Python call, reflecting try/except/finally
control flow exactly.
-/

/-- Model of a yarl URL: base path plus ordered query parameters. -/
structure Url where
  base : String
  params : List (String × String)
  deriving DecidableEq, Repr

/-- Lookup of a parameter value in a query string, first occurrence
wins, as in yarl multidict access. -/
def lookupParam (k : String) : List (String × String) → Option String
  | [] => none
  | (a, v) :: t => if a = k then some v else lookupParam k t

/-- The value of a query parameter of a URL. -/
def getParam (u : Url) (k : String) : Option String :=
  lookupParam k u.params

/-- Model of yarl URL.update_query with a single key: replace the value
of an existing key in place, otherwise append the pair at the end. -/
def updateQuery (u : Url) (k v : String) : Url :=
  if k ∈ u.params.map Prod.fst then
    { u with params := u.params.map (fun p => if p.1 = k then (k, v) else p) }
  else
    { u with params := u.params ++ [(k, v)] }

/-- Model of a crawlee Request: target URL plus the routing label stored
in user_data. -/
structure Request where
  url : Url
  label : Option String
  deriving DecidableEq, Repr

/-- Request.from_url for a profile fetch, as built in the search
handlers: service endpoint plus /xrpc/app.bsky.actor.getProfile with the
actor query parameter set to the author did, label user. -/
def profileRequest (endpoint did : String) : Request :=
  { url := { base := endpoint ++ "/xrpc/app.bsky.actor.getProfile"
             params := [("actor", did)] }
    label := some "user" }

/-- One entry of the posts array in a search response, holding exactly
the keys the handlers read.  Required keys are plain fields, keys read
with .get are Option fields. -/
structure PostJson where
  uri : String
  cid : String
  authorDid : String
  recordCreatedAt : String
  indexedAt : String
  replyCount : Int
  repostCount : Int
  likeCount : Int
  quoteCount : Int
  text : String
  langs : Option (List String)
  replyParent : Option String
  replyRoot : Option String
  deriving DecidableEq, Repr

/-- The post dictionary pushed to the dataset by the search handlers. -/
structure PostRecord where
  uri : String
  cid : String
  author_did : String
  created : String
  indexed : String
  reply_count : Int
  repost_count : Int
  like_count : Int
  quote_count : Int
  text : String
  langs : String
  reply_parent : Option String
  reply_root : Option String
  deriving DecidableEq, Repr

/-- Build the pushed post dictionary from one posts entry, as in the
loop body of the search handlers; langs is joined with a semicolon and
a missing langs key joins the empty list. -/
def mkPostRecord (post : PostJson) : PostRecord :=
  { uri := post.uri
    cid := post.cid
    author_did := post.authorDid
    created := post.recordCreatedAt
    indexed := post.indexedAt
    reply_count := post.replyCount
    repost_count := post.repostCount
    like_count := post.likeCount
    quote_count := post.quoteCount
    text := post.text
    langs := String.intercalate "; " (post.langs.getD [])
    reply_parent := post.replyParent
    reply_root := post.replyRoot }

/-- Decoded JSON body of a search response: the posts key may be absent,
and the cursor key may be absent. -/
structure SearchBody where
  posts : Option (List PostJson)
  cursor : Option String
  deriving DecidableEq, Repr

/-- The observable effects of one search-handler invocation: whether the
missing-posts warning was logged, the post dictionaries pushed, the
profile requests added, and the pagination continuation added. -/
structure SearchResult where
  warned : Bool
  pushedPosts : List PostRecord
  profileRequests : List Request
  continuation : Option Url
  deriving DecidableEq, Repr

/-- The walrus line shared by both handlers: if cursor := data.get(cursor)
followed by update_query.  Python truthiness makes the empty string skip
the continuation exactly like an absent key. -/
def contOf (reqUrl : Url) (cursor : Option String) : Option Url :=
  match cursor with
  | some c => if c = "" then none else some (updateQuery reqUrl "cursor" c)
  | none => none

/-- Loop body of BlueskyApiScraper._search_handler in actor.py: in users
mode an author did not yet keyed in the user_requests dict inserts a new
profile request, otherwise in posts mode the post dictionary is appended;
the dict is modelled as an insertion-ordered association list. -/
def searchStep (mode endpoint : String)
    (acc : List (String × Request) × List PostRecord) (post : PostJson) :
    List (String × Request) × List PostRecord :=
  if mode = "users" ∧ post.authorDid ∉ acc.1.map Prod.fst then
    (acc.1 ++ [(post.authorDid, profileRequest endpoint post.authorDid)], acc.2)
  else if mode = "posts" then
    (acc.1, acc.2 ++ [mkPostRecord post])
  else
    acc

/-- BlueskyApiScraper._search_handler in actor.py as a pure function of
the mode, the service endpoint, the URL of the request being handled and
the decoded body.  A body without the posts key logs a warning and
returns early; otherwise the loop runs, then posts are pushed in posts
mode, the collected profile requests are added otherwise, and a truthy
cursor adds one continuation request. -/
def searchHandler (mode endpoint : String) (reqUrl : Url) (body : SearchBody) :
    SearchResult :=
  match body.posts with
  | none =>
      { warned := true, pushedPosts := [], profileRequests := []
        continuation := none }
  | some posts =>
      let acc := posts.foldl (searchStep mode endpoint) ([], [])
      { warned := false
        pushedPosts := if mode = "posts" then acc.2 else []
        profileRequests := if mode = "posts" then [] else acc.1.map Prod.snd
        continuation := contOf reqUrl body.cursor }

/-- Loop body of BlueskyCrawler._search_handler in default.py: the
deduplicated profile request is inserted unconditionally and every post
dictionary is appended, there is no mode. -/
def defaultSearchStep (domain : String)
    (acc : List (String × Request) × List PostRecord) (post : PostJson) :
    List (String × Request) × List PostRecord :=
  let ur := if post.authorDid ∉ acc.1.map Prod.fst then
      acc.1 ++ [(post.authorDid, profileRequest domain post.authorDid)]
    else acc.1
  (ur, acc.2 ++ [mkPostRecord post])

/-- BlueskyCrawler._search_handler in default.py as a pure function. -/
def defaultSearchHandler (domain : String) (reqUrl : Url) (body : SearchBody) :
    SearchResult :=
  match body.posts with
  | none =>
      { warned := true, pushedPosts := [], profileRequests := []
        continuation := none }
  | some posts =>
      let acc := posts.foldl (defaultSearchStep domain) ([], [])
      { warned := false
        pushedPosts := acc.2
        profileRequests := acc.1.map Prod.snd
        continuation := contOf reqUrl body.cursor }

/-- Decoded JSON body of a profile response: every key the user handler
reads, each one Option-valued so that a missing key is representable. -/
structure ProfileJson where
  did : Option String
  createdAt : Option String
  avatar : Option String
  description : Option String
  displayName : Option String
  handle : Option String
  indexedAt : Option String
  postsCount : Option Int
  followersCount : Option Int
  followsCount : Option Int
  deriving DecidableEq, Repr

/-- The user dictionary pushed to the dataset by the user handlers. -/
structure ProfileRecord where
  did : String
  created : String
  avatar : Option String
  description : Option String
  display_name : Option String
  handle : String
  indexed : Option String
  posts_count : Int
  followers_count : Int
  follows_count : Int
  deriving DecidableEq, Repr

/-- The _user_handler of both files as a pure function: the six keys read
with bracket access raise KeyError when absent, modelled as none; the
four keys read with .get pass through as Option values. -/
def userHandler (d : ProfileJson) : Option ProfileRecord :=
  match d.did, d.createdAt, d.handle, d.postsCount, d.followersCount,
      d.followsCount with
  | some did, some created, some handle, some pc, some fc, some fl =>
      some { did := did
             created := created
             avatar := d.avatar
             description := d.description
             display_name := d.displayName
             handle := handle
             indexed := d.indexedAt
             posts_count := pc
             followers_count := fc
             follows_count := fl }
  | _, _, _, _, _, _ => none

/-- Insert a key into a first-occurrence list when not yet present: the
key set of the user_requests dict after one loop iteration. -/
def insFirst (acc : List String) (d : String) : List String :=
  if d ∈ acc then acc else acc ++ [d]

/-- Key list of the user_requests dict after the whole loop. -/
def firstOccs (l : List String) : List String :=
  l.foldl insFirst []

/-- The author did a profile request targets: its actor parameter. -/
def reqAuthor (q : Request) : Option String :=
  getParam q.url "actor"

/-- Number of profile requests produced by one handler invocation whose
actor parameter is the given did. -/
def countFor (d : String) (r : SearchResult) : Nat :=
  (r.profileRequests.filter (fun q => decide (reqAuthor q = some d))).length

/-- A run of the actor search handler over a list of pages, each page
being the handled request URL with its decoded body; the user_requests
dict is local to each invocation, as in the source. -/
def runSearchActor (mode endpoint : String) (pages : List (Url × SearchBody)) :
    List SearchResult :=
  pages.map (fun p => searchHandler mode endpoint p.1 p.2)

/-- Total number of profile requests for a given did over a run. -/
def runCountFor (d : String) (rs : List SearchResult) : Nat :=
  (rs.map (countFor d)).sum

/-- Observable events of the top-level run functions. -/
inductive Ev where
  | createSessionCall
  | sessionCreated
  | searchSubmitted
  | logHttpError
  | logUnexpectedError
  | deleteSessionCall
  deriving DecidableEq, Repr

/-- Final outcome of a top-level run call. -/
inductive Outcome where
  | ok
  | raisedHttpError
  | raisedTeardownError
  deriving DecidableEq, Repr

/-- Environment of step outcomes for a run: whether create_session
succeeds, whether the crawl body succeeds, and whether the HTTP call
inside delete_session succeeds. -/
structure RunEnv where
  authOk : Bool
  crawlOk : Bool
  deleteOk : Bool
  deriving DecidableEq, Repr

/-- The run function of actor.py.  create_session sits inside the try
block, so an authentication failure is logged by the HTTPError clause,
re-raised, and the finally clause still calls delete_session; a crawl
failure is logged by the generic clause and swallowed; an exception
inside delete_session escapes the finally clause and replaces any
in-flight outcome.  The mode is stored but never inspected here. -/
def actorRun (mode : String) (env : RunEnv) : List Ev × Outcome :=
  if env.authOk then
    if env.crawlOk then
      ([Ev.createSessionCall, Ev.sessionCreated, Ev.searchSubmitted,
        Ev.deleteSessionCall],
       if env.deleteOk then Outcome.ok else Outcome.raisedTeardownError)
    else
      ([Ev.createSessionCall, Ev.sessionCreated, Ev.searchSubmitted,
        Ev.logUnexpectedError, Ev.deleteSessionCall],
       if env.deleteOk then Outcome.ok else Outcome.raisedTeardownError)
  else
    ([Ev.createSessionCall, Ev.logHttpError, Ev.deleteSessionCall],
     if env.deleteOk then Outcome.raisedHttpError
     else Outcome.raisedTeardownError)

/-- The run function of default.py.  create_session sits before the try
block, so an authentication failure propagates directly and neither the
crawl nor delete_session runs; a crawl failure prints the traceback and
is swallowed; delete_session failures escape the finally clause. -/
def defaultRun (env : RunEnv) : List Ev × Outcome :=
  if env.authOk then
    if env.crawlOk then
      ([Ev.createSessionCall, Ev.sessionCreated, Ev.searchSubmitted,
        Ev.deleteSessionCall],
       if env.deleteOk then Outcome.ok else Outcome.raisedTeardownError)
    else
      ([Ev.createSessionCall, Ev.sessionCreated, Ev.searchSubmitted,
        Ev.logUnexpectedError, Ev.deleteSessionCall],
       if env.deleteOk then Outcome.ok else Outcome.raisedTeardownError)
  else
    ([Ev.createSessionCall], Outcome.raisedHttpError)

/-- A concrete posts entry authored by did:a, used in concrete runs. -/
def postA : PostJson :=
  { uri := "at://post1", cid := "c1", authorDid := "did:a"
    recordCreatedAt := "t1", indexedAt := "t2"
    replyCount := 0, repostCount := 0, likeCount := 0, quoteCount := 0
    text := "hello", langs := none, replyParent := none, replyRoot := none }

/-- A concrete search URL with a q parameter. -/
def urlQ : Url :=
  { base := "https://ep/xrpc/app.bsky.feed.searchPosts"
    params := [("q", "python")] }

/-- Two result pages, each containing one post by the same author. -/
def pagesTwice : List (Url × SearchBody) :=
  [(urlQ, { posts := some [postA], cursor := none }),
   (urlQ, { posts := some [postA], cursor := none })]

/-- A concrete profile body with every key present. -/
def profFull : ProfileJson :=
  { did := some "did:z", createdAt := some "2020-01-01"
    avatar := some "av", description := some "bio"
    displayName := some "Zed", handle := some "z.bsky.social"
    indexedAt := some "2021-01-01"
    postsCount := some 10, followersCount := some 20, followsCount := some 30 }


theorem lookup_replace_self (k v : String) :
    ∀ l : List (String × String), k ∈ l.map Prod.fst →
      lookupParam k (l.map (fun p => if p.1 = k then (k, v) else p)) = some v
  | [], hmem => by simp at hmem
  | (a, b) :: t, hmem => by
      by_cases hp : a = k
      · subst hp
        have hhead : (if ((a, b) : String × String).1 = a then (a, v) else (a, b))
            = (a, v) := if_pos rfl
        rw [List.map_cons, hhead]
        simp [lookupParam]
      · rw [List.map_cons] at hmem
        have ht : k ∈ t.map Prod.fst := by
          rcases List.mem_cons.mp hmem with h | h
          · exact absurd h.symm hp
          · exact h
        have hhead : (if ((a, b) : String × String).1 = k then (k, v) else (a, b))
            = (a, b) := if_neg hp
        rw [List.map_cons, hhead]
        simpa [lookupParam, hp] using lookup_replace_self k v t ht

theorem lookup_append_self (k v : String) :
    ∀ l : List (String × String), k ∉ l.map Prod.fst →
      lookupParam k (l ++ [(k, v)]) = some v
  | [], _ => by simp [lookupParam]
  | (a, b) :: t, hmem => by
      rw [List.map_cons, List.mem_cons, not_or] at hmem
      have hak : ¬ a = k := fun h => hmem.1 h.symm
      simpa [lookupParam, hak] using lookup_append_self k v t hmem.2

theorem lookup_replace_ne (k v q : String) (hq : q ≠ k) :
    ∀ l : List (String × String),
      lookupParam q (l.map (fun p => if p.1 = k then (k, v) else p)) =
        lookupParam q l
  | [] => by simp
  | (a, b) :: t => by
      have ih := lookup_replace_ne k v q hq t
      by_cases hp : a = k
      · subst hp
        have hhead : (if ((a, b) : String × String).1 = a then (a, v) else (a, b))
            = (a, v) := if_pos rfl
        rw [List.map_cons, hhead]
        have haq : ¬ a = q := fun h => hq h.symm
        simpa [lookupParam, haq] using ih
      · have hhead : (if ((a, b) : String × String).1 = k then (k, v) else (a, b))
            = (a, b) := if_neg hp
        rw [List.map_cons, hhead]
        by_cases hqa : a = q <;> simpa [lookupParam, hqa] using ih

theorem lookup_append_ne (k v q : String) (hq : q ≠ k) :
    ∀ l : List (String × String),
      lookupParam q (l ++ [(k, v)]) = lookupParam q l
  | [] => by
      have hkq : ¬ k = q := fun h => hq h.symm
      simp [lookupParam, hkq]
  | (a, b) :: t => by
      have ih := lookup_append_ne k v q hq t
      by_cases hqa : a = q <;> simpa [lookupParam, hqa] using ih

theorem getParam_updateQuery_self (u : Url) (k v : String) :
    getParam (updateQuery u k v) k = some v := by
  rw [getParam, updateQuery]
  by_cases hmem : k ∈ u.params.map Prod.fst
  · rw [if_pos hmem]
    exact lookup_replace_self k v u.params hmem
  · rw [if_neg hmem]
    exact lookup_append_self k v u.params hmem

theorem getParam_updateQuery_ne (u : Url) (k v q : String) (hq : q ≠ k) :
    getParam (updateQuery u k v) q = getParam u q := by
  rw [getParam, updateQuery, getParam]
  by_cases hmem : k ∈ u.params.map Prod.fst
  · rw [if_pos hmem]
    exact lookup_replace_ne k v q hq u.params
  · rw [if_neg hmem]
    exact lookup_append_ne k v q hq u.params

theorem foldl_searchStep_posts (ep : String) :
    ∀ (l : List PostJson) (ur : List (String × Request)) (acc : List PostRecord),
      l.foldl (searchStep "posts" ep) (ur, acc) = (ur, acc ++ l.map mkPostRecord)
  | [], ur, acc => by simp
  | p :: t, ur, acc => by
      have hstep : searchStep "posts" ep (ur, acc) p = (ur, acc ++ [mkPostRecord p]) := by
        simp [searchStep]
      rw [List.foldl_cons, hstep, foldl_searchStep_posts ep t]
      simp

theorem foldl_searchStep_other (mode ep : String) (h1 : mode ≠ "users")
    (h2 : mode ≠ "posts") :
    ∀ (l : List PostJson) (ur : List (String × Request)) (acc : List PostRecord),
      l.foldl (searchStep mode ep) (ur, acc) = (ur, acc)
  | [], _, _ => by simp
  | p :: t, ur, acc => by
      have hstep : searchStep mode ep (ur, acc) p = (ur, acc) := by
        simp [searchStep, h1, h2]
      rw [List.foldl_cons, hstep]
      exact foldl_searchStep_other mode ep h1 h2 t ur acc

theorem foldl_searchStep_users (ep : String) :
    ∀ (l : List PostJson) (ks : List String) (acc : List PostRecord),
      l.foldl (searchStep "users" ep)
          (ks.map (fun d => (d, profileRequest ep d)), acc) =
        (((l.map PostJson.authorDid).foldl insFirst ks).map
            (fun d => (d, profileRequest ep d)), acc)
  | [], ks, acc => by simp
  | p :: t, ks, acc => by
      have hkeys : (ks.map (fun d => (d, profileRequest ep d))).map Prod.fst = ks := by
        rw [List.map_map]
        simp [Function.comp_def]
      by_cases hmem : p.authorDid ∈ ks
      · have hstep : searchStep "users" ep
            (ks.map (fun d => (d, profileRequest ep d)), acc) p =
            (ks.map (fun d => (d, profileRequest ep d)), acc) := by
          simp [searchStep, hkeys, hmem]
        rw [List.foldl_cons, hstep, foldl_searchStep_users ep t ks acc]
        simp [insFirst, hmem]
      · have hstep : searchStep "users" ep
            (ks.map (fun d => (d, profileRequest ep d)), acc) p =
            ((ks ++ [p.authorDid]).map (fun d => (d, profileRequest ep d)), acc) := by
          simp [searchStep, hkeys, hmem]
        rw [List.foldl_cons, hstep, foldl_searchStep_users ep t (ks ++ [p.authorDid]) acc]
        simp [insFirst, hmem]

theorem foldl_insFirst_nodup :
    ∀ (l ks : List String), ks.Nodup → (l.foldl insFirst ks).Nodup
  | [], _, h => h
  | d :: t, ks, h => by
      by_cases hmem : d ∈ ks
      · rw [List.foldl_cons, show insFirst ks d = ks from if_pos hmem]
        exact foldl_insFirst_nodup t ks h
      · rw [List.foldl_cons, show insFirst ks d = ks ++ [d] from if_neg hmem]
        refine foldl_insFirst_nodup t (ks ++ [d]) ?_
        simp [List.nodup_append, h, hmem]

theorem foldl_insFirst_toFinset :
    ∀ (l ks : List String),
      (l.foldl insFirst ks).toFinset = ks.toFinset ∪ l.toFinset
  | [], ks => by simp
  | d :: t, ks => by
      by_cases hmem : d ∈ ks
      · rw [List.foldl_cons, show insFirst ks d = ks from if_pos hmem,
          foldl_insFirst_toFinset t ks, List.toFinset_cons, Finset.union_insert,
          Finset.insert_eq_self.mpr
            (Finset.mem_union_left _ (List.mem_toFinset.mpr hmem))]
      · rw [List.foldl_cons, show insFirst ks d = ks ++ [d] from if_neg hmem,
          foldl_insFirst_toFinset t (ks ++ [d]), List.toFinset_append,
          Finset.union_assoc, List.toFinset_cons]
        ext x
        simp
        tauto

theorem mem_foldl_insFirst (l ks : List String) (d : String) :
    d ∈ l.foldl insFirst ks ↔ (d ∈ ks ∨ d ∈ l) := by
  rw [← List.mem_toFinset, foldl_insFirst_toFinset]
  simp [List.mem_toFinset]

theorem length_filter_profileRequests (ep d : String) :
    ∀ ks : List String, ks.Nodup →
      ((ks.map (fun x => profileRequest ep x)).filter
          (fun q => decide (reqAuthor q = some d))).length =
        if d ∈ ks then 1 else 0
  | [], _ => by simp
  | k :: t, h => by
      have hra : reqAuthor (profileRequest ep k) = some k := by
        simp [reqAuthor, profileRequest, getParam, lookupParam]
      have ht := length_filter_profileRequests ep d t (List.Nodup.of_cons h)
      by_cases hk : k = d
      · subst hk
        have hnot : k ∉ t := (List.nodup_cons.mp h).1
        simp [List.filter, hra, ht, hnot]
      · have hdk : ¬ d = k := fun h => hk h.symm
        simp [List.filter, hra, hk, hdk, ht]

theorem searchHandler_users_profileRequests (ep : String) (u : Url)
    (ps : List PostJson) (co : Option String) :
    (searchHandler "users" ep u { posts := some ps, cursor := co }).profileRequests =
      (firstOccs (ps.map PostJson.authorDid)).map (fun x => profileRequest ep x) := by
  have h := foldl_searchStep_users ep ps [] []
  rw [List.map_nil] at h
  simp [searchHandler, h, firstOccs, List.map_map, Function.comp_def]

theorem countFor_searchHandler_users (ep d : String) (u : Url)
    (ps : List PostJson) (co : Option String) :
    countFor d (searchHandler "users" ep u { posts := some ps, cursor := co }) =
      if d ∈ ps.map PostJson.authorDid then 1 else 0 := by
  rw [countFor, searchHandler_users_profileRequests]
  unfold firstOccs
  rw [length_filter_profileRequests ep d _
    (foldl_insFirst_nodup (ps.map PostJson.authorDid) [] List.nodup_nil)]
  by_cases hmem : d ∈ ps.map PostJson.authorDid
  · rw [if_pos ((mem_foldl_insFirst _ [] d).mpr (Or.inr hmem)), if_pos hmem]
  · rw [if_neg (fun hc => by
      rcases (mem_foldl_insFirst _ [] d).mp hc with h | h
      · simp at h
      · exact hmem h), if_neg hmem]

theorem searchHandler_posts_spec (ep : String) (u : Url) (b : SearchBody) :
    (searchHandler "posts" ep u b).pushedPosts =
        (b.posts.getD []).map mkPostRecord ∧
      (searchHandler "posts" ep u b).profileRequests = [] := by
  obtain ⟨posts, cursor⟩ := b
  cases posts with
  | none => simp [searchHandler]
  | some ps =>
      have h := foldl_searchStep_posts ep ps [] []
      simp [searchHandler, h]

theorem countFor_searchHandler_users_page (ep d : String) (p : Url × SearchBody) :
    countFor d (searchHandler "users" ep p.1 p.2) =
      if d ∈ (p.2.posts.getD []).map PostJson.authorDid then 1 else 0 := by
  obtain ⟨u, posts, cursor⟩ := p
  cases posts with
  | none => simp [searchHandler, countFor]
  | some ps => simpa using countFor_searchHandler_users ep d u ps cursor

/-- C3: for every search response whose body lacks the posts key, both
search handlers log the warning, push no records, add no profile
requests and submit no continuation, returning normally. -/
theorem c3_missing_posts_key (mode ep dom : String) (u v : Url)
    (c1 c2 : Option String) :
    searchHandler mode ep u { posts := none, cursor := c1 } =
        { warned := true, pushedPosts := [], profileRequests := []
          continuation := none } ∧
      defaultSearchHandler dom v { posts := none, cursor := c2 } =
        { warned := true, pushedPosts := [], profileRequests := []
          continuation := none } :=
  ⟨rfl, rfl⟩

/-- C2 counterexample: a page whose body carries a cursor field holding
the empty string gets no continuation request from either handler, so
the claim that every page with a cursor field is continued fails. -/
theorem c2_counterexample :
    (searchHandler "posts" "https://ep" urlQ
        { posts := some [postA], cursor := some "" }).continuation = none ∧
      (defaultSearchHandler "https://ep" urlQ
        { posts := some [postA], cursor := some "" }).continuation = none :=
  ⟨rfl, rfl⟩

/-- C2 amended: for every page that has a posts key and a non-empty
cursor string, each handler submits exactly one continuation built from
the handled URL by setting the cursor parameter to the returned value,
in every mode; the cursor parameter is set and every other parameter,
in particular q, is preserved. -/
theorem c2_amended (mode ep dom : String) (u : Url) (ps : List PostJson)
    (c : String) (hc : c ≠ "") :
    (searchHandler mode ep u { posts := some ps, cursor := some c }).continuation =
        some (updateQuery u "cursor" c) ∧
      (defaultSearchHandler dom u { posts := some ps, cursor := some c }).continuation =
        some (updateQuery u "cursor" c) ∧
      getParam (updateQuery u "cursor" c) "cursor" = some c ∧
      ∀ k, k ≠ "cursor" → getParam (updateQuery u "cursor" c) k = getParam u k := by
  refine ⟨?_, ?_, getParam_updateQuery_self u "cursor" c,
    fun k hk => getParam_updateQuery_ne u "cursor" c k hk⟩
  · simp [searchHandler, contOf, hc]
  · simp [defaultSearchHandler, contOf, hc]

/-- C2 witness: the amended statement applied at a concrete page. -/
theorem c2_witness :
    (searchHandler "posts" "https://ep" urlQ
        { posts := some [postA], cursor := some "abc" }).continuation =
      some (updateQuery urlQ "cursor" "abc") :=
  (c2_amended "posts" "https://ep" "https://ep" urlQ [postA] "abc"
    (by decide)).1

/-- C6: in posts mode, over any run of search responses, the number of
pushed post records equals the total number of post entries across the
pages, and the number of profile requests added over the whole run is
zero. -/
theorem c6_posts_mode (ep : String) (pages : List (Url × SearchBody)) :
    ((runSearchActor "posts" ep pages).map
        (fun r => r.pushedPosts.length)).sum =
        (pages.map (fun p => (p.2.posts.getD []).length)).sum ∧
      ((runSearchActor "posts" ep pages).map
        (fun r => r.profileRequests.length)).sum = 0 := by
  induction pages with
  | nil => exact ⟨rfl, rfl⟩
  | cons p t ih =>
      obtain ⟨h1, h2⟩ := searchHandler_posts_spec ep p.1 p.2
      simp only [runSearchActor, List.map_cons, List.sum_cons] at ih ⊢
      rw [h1, h2]
      constructor
      · rw [List.length_map, ih.1]
      · rw [ih.2]
        rfl

/-- C7: in users mode, one search response yields exactly as many
profile requests as there are distinct author identifiers among its
posts, independently of the number of post entries. -/
theorem c7_users_mode (ep : String) (u : Url) (ps : List PostJson)
    (co : Option String) :
    (searchHandler "users" ep u
        { posts := some ps, cursor := co }).profileRequests.length =
      (ps.map PostJson.authorDid).toFinset.card := by
  rw [searchHandler_users_profileRequests, List.length_map]
  have hnd : (firstOccs (ps.map PostJson.authorDid)).Nodup :=
    foldl_insFirst_nodup _ [] List.nodup_nil
  rw [← List.toFinset_card_of_nodup hnd]
  unfold firstOccs
  rw [foldl_insFirst_toFinset]
  simp

/-- C1 counterexample: in users mode, an author offered on two distinct
result pages of one run receives two profile requests, not one, because
the user_requests dict is created afresh inside each handler invocation;
so run-wide once-only emission fails. -/
theorem c1_counterexample :
    runCountFor "did:a" (runSearchActor "users" "https://ep" pagesTwice) = 2 ∧
      runCountFor "did:a" (runSearchActor "users" "https://ep" pagesTwice) ≠ 1 := by
  constructor
  · rfl
  · decide

/-- C1 amended: in users mode the run-wide number of profile requests
for an author identifier equals the number of handler invocations whose
page contains that identifier: exactly one per page that offers it,
however many times it is offered within the page, and one more for every
further page that offers it again. -/
theorem c1_amended (ep d : String) (pages : List (Url × SearchBody)) :
    runCountFor d (runSearchActor "users" ep pages) =
      (pages.filter (fun p =>
        decide (d ∈ (p.2.posts.getD []).map PostJson.authorDid))).length := by
  induction pages with
  | nil => rfl
  | cons p t ih =>
      have hcons : runCountFor d (runSearchActor "users" ep (p :: t)) =
          countFor d (searchHandler "users" ep p.1 p.2) +
            runCountFor d (runSearchActor "users" ep t) := by
        simp [runCountFor, runSearchActor]
      rw [hcons, countFor_searchHandler_users_page ep d p, ih, List.filter_cons]
      by_cases hmem : d ∈ (p.2.posts.getD []).map PostJson.authorDid
      · simp [hmem]
        omega
      · simp [hmem]

/-- C10: the user_requests dict is local to one search-handler
invocation and keyed by author did: one invocation yields exactly one
profile request for an identifier its page contains and zero otherwise,
and two invocations whose pages both contain the identifier yield one
request each, two in total. -/
theorem c10_fresh_per_invocation (ep : String) (u1 u2 : Url)
    (ps1 ps2 : List PostJson) (c1 c2 : Option String) (d : String) :
    countFor d (searchHandler "users" ep u1 { posts := some ps1, cursor := c1 }) =
        (if d ∈ ps1.map PostJson.authorDid then 1 else 0) ∧
      (d ∈ ps1.map PostJson.authorDid → d ∈ ps2.map PostJson.authorDid →
        countFor d (searchHandler "users" ep u1 { posts := some ps1, cursor := c1 }) +
          countFor d (searchHandler "users" ep u2 { posts := some ps2, cursor := c2 }) = 2) := by
  refine ⟨countFor_searchHandler_users ep d u1 ps1 c1, fun h1 h2 => ?_⟩
  rw [countFor_searchHandler_users ep d u1 ps1 c1,
    countFor_searchHandler_users ep d u2 ps2 c2, if_pos h1, if_pos h2]

/-- C10 witness: two concrete pages both containing the same author
yield one profile request each. -/
theorem c10_witness :
    countFor "did:a" (searchHandler "users" "https://ep" urlQ
        { posts := some [postA], cursor := none }) +
      countFor "did:a" (searchHandler "users" "https://ep" urlQ
        { posts := some [postA], cursor := none }) = 2 :=
  (c10_fresh_per_invocation "https://ep" urlQ urlQ [postA] [postA] none none
    "did:a").2 (by decide) (by decide)

/-- C4 counterexample: in the actor.py run, when authentication fails
the finally clause still calls delete_session even though no session
exists, so the part of the claim saying destroySession is never called
fails; the abort before any search request does hold there. -/
theorem c4_counterexample :
    Ev.deleteSessionCall ∈
        (actorRun "posts" { authOk := false, crawlOk := true, deleteOk := true }).1 ∧
      Ev.searchSubmitted ∉
        (actorRun "posts" { authOk := false, crawlOk := true, deleteOk := true }).1 := by
  decide

/-- C4 amended: when authentication fails, both run variants abort
before any search request is built; the default.py run never calls
delete_session and propagates the HTTP error, while the actor.py run
still calls delete_session from its finally clause. -/
theorem c4_amended (mode : String) (env : RunEnv) (h : env.authOk = false) :
    Ev.searchSubmitted ∉ (actorRun mode env).1 ∧
      Ev.searchSubmitted ∉ (defaultRun env).1 ∧
      Ev.deleteSessionCall ∉ (defaultRun env).1 ∧
      Ev.deleteSessionCall ∈ (actorRun mode env).1 ∧
      (defaultRun env).2 = Outcome.raisedHttpError := by
  obtain ⟨a, b, c⟩ := env
  cases a
  · refine ⟨?_, ?_, ?_, ?_, ?_⟩ <;> simp [actorRun, defaultRun]
  · simp at h

/-- C4 witness: the amended statement at a concrete failing-auth run. -/
theorem c4_witness :
    Ev.searchSubmitted ∉
        (actorRun "users" { authOk := false, crawlOk := false, deleteOk := true }).1 ∧
      Ev.searchSubmitted ∉
        (defaultRun { authOk := false, crawlOk := false, deleteOk := true }).1 ∧
      Ev.deleteSessionCall ∉
        (defaultRun { authOk := false, crawlOk := false, deleteOk := true }).1 ∧
      Ev.deleteSessionCall ∈
        (actorRun "users" { authOk := false, crawlOk := false, deleteOk := true }).1 ∧
      (defaultRun { authOk := false, crawlOk := false, deleteOk := true }).2 =
        Outcome.raisedHttpError :=
  c4_amended "users" { authOk := false, crawlOk := false, deleteOk := true } rfl

/-- C5 counterexample: when the crawl succeeds but the HTTP call inside
delete_session fails, the exception escapes the finally clause of the
actor.py run and the outcome is the teardown error instead of success,
so the failure is rethrown and masks the crawl outcome. -/
theorem c5_counterexample :
    (actorRun "posts" { authOk := true, crawlOk := true, deleteOk := false }).2 =
        Outcome.raisedTeardownError ∧
      (actorRun "posts" { authOk := true, crawlOk := true, deleteOk := false }).2 ≠
        Outcome.ok := by
  decide

/-- C5 amended: on every run that created a session, delete_session is
invoked at crawl end on both the success and the failure path; a failure
inside delete_session is not caught: it escapes the finally clause and
replaces the run outcome, while a successful teardown leaves the
crawl outcome intact. -/
theorem c5_amended (mode : String) (env : RunEnv) (h : env.authOk = true) :
    Ev.deleteSessionCall ∈ (actorRun mode env).1 ∧
      (env.deleteOk = false →
        (actorRun mode env).2 = Outcome.raisedTeardownError) ∧
      (env.deleteOk = true → (actorRun mode env).2 = Outcome.ok) := by
  obtain ⟨a, b, c⟩ := env
  cases a
  · simp at h
  · cases b <;> cases c <;> refine ⟨?_, ?_, ?_⟩ <;> simp [actorRun]

/-- C5 witness: the amended statement at a concrete run whose
session-deletion call fails after a successful crawl. -/
theorem c5_witness :
    (actorRun "posts" { authOk := true, crawlOk := true, deleteOk := false }).2 =
      Outcome.raisedTeardownError :=
  (c5_amended "posts" { authOk := true, crawlOk := true, deleteOk := false }
    rfl).2.1 rfl

/-- C9 counterexample: with the invalid mode feeds the run proceeds
through authentication and crawling and ends with a successful outcome,
and the search handler still processes a response under the invalid
mode, submitting a pagination continuation; no configuration failure
exists anywhere in the model because none exists in the code. -/
theorem c9_counterexample :
    Ev.searchSubmitted ∈
        (actorRun "feeds" { authOk := true, crawlOk := true, deleteOk := true }).1 ∧
      (actorRun "feeds" { authOk := true, crawlOk := true, deleteOk := true }).2 =
        Outcome.ok ∧
      (searchHandler "feeds" "https://ep" urlQ
        { posts := some [postA], cursor := some "abc" }).continuation.isSome = true := by
  refine ⟨by decide, by decide, ?_⟩
  rfl

/-- C9 amended: no mode validation exists: a run whose mode is neither
posts nor users behaves at the run level exactly like any other run, and
each of its search-handler invocations pushes no post records and adds
no profile requests yet still submits the pagination continuation for a
truthy cursor. -/
theorem c9_amended (mode : String) (env : RunEnv) (ep : String) (u : Url)
    (ps : List PostJson) (c : String) (h1 : mode ≠ "posts")
    (h2 : mode ≠ "users") (hc : c ≠ "") :
    actorRun mode env = actorRun "posts" env ∧
      (searchHandler mode ep u { posts := some ps, cursor := some c }).pushedPosts = [] ∧
      (searchHandler mode ep u { posts := some ps, cursor := some c }).profileRequests = [] ∧
      (searchHandler mode ep u { posts := some ps, cursor := some c }).continuation =
        some (updateQuery u "cursor" c) := by
  have hfold := foldl_searchStep_other mode ep h2 h1 ps [] []
  refine ⟨rfl, ?_, ?_, ?_⟩
  · simp [searchHandler, hfold, h1]
  · simp [searchHandler, hfold, h1]
  · simp [searchHandler, contOf, hc]

/-- C9 witness: the amended statement at a concrete invalid mode. -/
theorem c9_witness :
    (searchHandler "feeds" "https://ep" urlQ
        { posts := some [postA], cursor := some "abc" }).profileRequests = [] :=
  (c9_amended "feeds" { authOk := true, crawlOk := true, deleteOk := true }
    "https://ep" urlQ [postA] "abc" (by decide) (by decide) (by decide)).2.2.1

/-- C8: classifying a profile body maps every field of the input to the
corresponding record field unchanged whenever the six required keys are
present, with absent optional keys passing through as absent; and it
fails, pushing nothing, whenever any required key is missing. -/
theorem c8_profile_roundtrip (d : ProfileJson) :
    (∀ dv cv hv pv fv lv, d.did = some dv → d.createdAt = some cv →
      d.handle = some hv → d.postsCount = some pv → d.followersCount = some fv →
      d.followsCount = some lv →
      userHandler d = some
        { did := dv, created := cv, avatar := d.avatar,
          description := d.description, display_name := d.displayName,
          handle := hv, indexed := d.indexedAt, posts_count := pv,
          followers_count := fv, follows_count := lv }) ∧
    ((d.did = none ∨ d.createdAt = none ∨ d.handle = none ∨
      d.postsCount = none ∨ d.followersCount = none ∨ d.followsCount = none) →
      userHandler d = none) := by
  obtain ⟨dd, ca, av, de, dn, hh, ia, pc, fc, fl⟩ := d
  constructor
  · rintro dv cv hv pv fv lv h1 h2 h3 h4 h5 h6
    subst h1
    subst h2
    subst h3
    subst h4
    subst h5
    subst h6
    rfl
  · intro h
    rcases dd with _ | dv <;> rcases ca with _ | cv <;> rcases hh with _ | hv <;>
      rcases pc with _ | pv <;> rcases fc with _ | fv <;> rcases fl with _ | lv <;>
      simp_all [userHandler]

/-- C8 witness: a concrete full profile body round-trips with every
field preserved. -/
theorem c8_witness :
    userHandler profFull = some
      { did := "did:z", created := "2020-01-01",
        avatar := some "av", description := some "bio",
        display_name := some "Zed", handle := "z.bsky.social",
        indexed := some "2021-01-01", posts_count := 10,
        followers_count := 20, follows_count := 30 } :=
  (c8_profile_roundtrip profFull).1 "did:z" "2020-01-01" "z.bsky.social"
    10 20 30 rfl rfl rfl rfl rfl rfl
